import Mathlib

/-!
Verification of the HealthyCity backend service (`main.py`).

The service is a thin FastAPI layer: it resolves a city name to coordinates
(static table with a geocoding fallback), issues queries to an external
geospatial platform (Google Earth Engine) for two real metrics, and returns
fixed or randomized placeholder payloads for the remaining endpoints.

Embedding conventions:
* Python floats are modelled as exact rationals (`ℚ`); the decimal literals
  of the source elaborate exactly via `OfScientific`.
* The network and the geospatial platform are external inputs: a request
  handler takes an `Env` (the configured API key and the behaviour of the
  geocoding service on this request) and, for the two real-data endpoints,
  the outcome of the platform's `reduceRegion(...).getInfo()` call as an
  explicit `Except String (Option ℚ)` argument (`.error` = platform raised,
  `.ok none` = the stats dictionary has no value for the requested band,
  `.ok (some v)` = the spatial reduction produced `v`).
* A Python `raise HTTPException(status_code, detail)` is modelled as
  `Except.error ⟨status_code, detail⟩`; a JSON success payload as
  `Except.ok` of a flat record of the payload's fields.
* `str.lower`, `str.title` and `str.isalpha` are modelled on their ASCII
  behaviour, which is all the static city table exercises.
-/

namespace HealthyCity

/-- ASCII model of Python `str.lower`: lower-case every character. -/
def pyLower (s : String) : String := ⟨s.data.map Char.toLower⟩

/-- Helper for `pyTitle`: the Boolean records whether the previous character
was alphabetic. -/
def pyTitleAux : Bool → List Char → List Char
  | _, [] => []
  | prevAlpha, c :: cs =>
    (if c.isAlpha then (if prevAlpha then c.toLower else c.toUpper) else c)
      :: pyTitleAux c.isAlpha cs

/-- ASCII model of Python `str.title`: the first letter of every alphabetic
run is upper-cased, the rest lower-cased. -/
def pyTitle (s : String) : String := ⟨pyTitleAux false s.data⟩

/-- A single-quote character as a string (used in the resolver's 404 detail,
`"City '<name>' not found."`). -/
def sq : String := String.singleton (Char.ofNat 39)

/-- `strStarts hay needle`: `needle` is an initial segment of `hay`. -/
def strStarts : List Char → List Char → Bool
  | _, [] => true
  | [], _ :: _ => false
  | c :: cs, d :: ds => c == d && strStarts cs ds

/-- `strHas hay needle`: `needle` occurs contiguously somewhere in `hay`. -/
def strHas : List Char → List Char → Bool
  | [], needle => needle.isEmpty
  | c :: cs, needle => strStarts (c :: cs) needle || strHas cs needle

/-- A latitude/longitude pair (`Coordinate` in the spec's data model). -/
structure Coord where
  lat : ℚ
  lon : ℚ
deriving DecidableEq, Repr

/-- Outcome of the OpenWeatherMap geocoding HTTP call for one request.
`requestError` covers every `requests.exceptions.RequestException`:
connection failure, the 10-second timeout firing, and a non-2xx status
(which `raise_for_status` turns into such an exception).  `ok data` is a
successful 2xx response whose JSON body is the list `data` of matches. -/
inductive GeoOutcome where
  | ok (data : List Coord)
  | requestError
deriving DecidableEq

/-- The request-time environment of the service: the configured
`OPENWEATHER_API_KEY` (`none` when the variable is unset) and the behaviour
of the external geocoding service on each query string. -/
structure Env where
  apiKey : Option String
  geocode : String → GeoOutcome

/-- A FastAPI `HTTPException`: status code and human-readable detail. -/
structure HTTPError where
  status : Nat
  detail : String
deriving DecidableEq, Repr

/-- The hardcoded city table of `get_city_coords` (main.py lines 37-44),
keyed by the lower-cased city name. -/
def known_cities : List (String × Coord) :=
  [("shimoga", ⟨13.9299, 75.5681⟩),
   ("challakere", ⟨14.3135, 76.6534⟩),
   ("mumbai", ⟨19.0760, 72.8777⟩),
   ("tokyo", ⟨35.6762, 139.6503⟩),
   ("london", ⟨51.5072, -0.1276⟩),
   ("new york", ⟨40.7128, -74.0060⟩)]

/-- `get_city_coords` (main.py lines 32-62): case-insensitive lookup in the
static table; on miss, fall back to the live geocoding API.  A missing API
key raises 500; a geocoding request error raises 503; an empty geocoding
result raises 404; otherwise the first match's coordinates are returned. -/
def get_city_coords (env : Env) (city_name : String) : Except HTTPError Coord :=
  match List.lookup (pyLower city_name) known_cities with
  | some c => Except.ok c
  | none =>
    match env.apiKey with
    | none => Except.error ⟨500, "OpenWeatherMap API key is not configured."⟩
    | some _ =>
      match env.geocode city_name with
      | GeoOutcome.requestError =>
          Except.error ⟨503, "Geocoding service is unavailable."⟩
      | GeoOutcome.ok [] =>
          Except.error ⟨404, "City " ++ sq ++ city_name ++ sq ++ " not found."⟩
      | GeoOutcome.ok (d :: _) => Except.ok d

/-- The JSON success payload of `/city/{city}/greencover` (main.py lines
94-99); `location{lat,lon}` is flattened, and the two numeric fields are the
exact values that the source formats with `:.2f` / `:.4f`. -/
structure GreenCoverResponse where
  city : String
  lat : ℚ
  lon : ℚ
  avg_coverage : ℚ
  avg_ndvi : ℚ
  data_source : String
deriving DecidableEq, Repr

/-- `get_green_cover_real` (main.py lines 67-103).  `ndviStats` is the
outcome of the platform call chain
`ndvi.reduceRegion(mean, region, 30, 1e9).getInfo()` followed by
`stats.get('NDVI')`: `.error msg` when the platform raised (caught by the
generic handler and re-raised as 500), `.ok none` when the stats dictionary
holds no NDVI value, `.ok (some v)` when the spatial reduction produced `v`.
An `HTTPException` from the resolver is re-raised unchanged (lines 100-101).
The percentage is computed as `(avg_ndvi + 1) * 50` (line 92). -/
def get_green_cover_real (env : Env) (city : String)
    (ndviStats : Except String (Option ℚ)) : Except HTTPError GreenCoverResponse :=
  match get_city_coords env city with
  | Except.error e => Except.error e
  | Except.ok c =>
    match ndviStats with
    | Except.error msg =>
        Except.error ⟨500, "An Earth Engine error occurred: " ++ msg⟩
    | Except.ok none =>
        Except.error ⟨404, "Could not calculate NDVI for this area."⟩
    | Except.ok (some avg_ndvi) =>
        Except.ok ⟨pyTitle city, c.lat, c.lon, (avg_ndvi + 1) * 50, avg_ndvi,
                   "Sentinel-2 Satellite"⟩

/-- `scale_thermal` (main.py lines 114-116): per-pixel conversion of the raw
`ST_B10` band, `image * 0.00341802 + 149.0` (radiance to Kelvin) followed by
`- 273.15` (Kelvin to Celsius), in exact rational arithmetic. -/
def scale_thermal (image : ℚ) : ℚ := image * 0.00341802 + 149.0 - 273.15

/-- An element of the Landsat image collection, reduced to the only attribute
the service inspects: its `system:time_start` acquisition timestamp (the
raster content stays on the platform). -/
structure Image where
  time_start : ℤ
deriving DecidableEq, Repr

/-- One insertion step of sorting by `system:time_start` descending. -/
def insertDesc (img : Image) : List Image → List Image
  | [] => [img]
  | x :: xs =>
    if x.time_start ≤ img.time_start then img :: x :: xs
    else x :: insertDesc img xs

/-- The collection sorted by `system:time_start` descending, the model of
`.sort('system:time_start', False)` (main.py line 122). -/
def sortDesc : List Image → List Image
  | [] => []
  | x :: xs => insertDesc x (sortDesc xs)

/-- `.sort('system:time_start', False).first()` (main.py lines 122-123):
the head of the descending-sorted collection, `none` on an empty
collection (Earth Engine's `first()` yields `None` there, checked at
line 125). -/
def eeFirst (collection : List Image) : Option Image :=
  (sortDesc collection).head?

/-- The JSON success payload of `/city/{city}/heatmap` (main.py lines
139-143), `location{lat,lon}` flattened and `avg_temp` kept exact. -/
structure HeatResponse where
  city : String
  lat : ℚ
  lon : ℚ
  avg_temp : ℚ
  data_source : String
deriving DecidableEq, Repr

/-- `get_heat_map_real` (main.py lines 106-147).  `collection` is the image
collection after the platform applied the bounds, cloud-cover and date
filters (so "no image passes the filter" is `collection = []`); `lstStats`
is the outcome of `lst_celsius.reduceRegion(...).getInfo()` followed by
`stats.get('LST_Celsius')`, with the same three-way reading as in
`get_green_cover_real`. -/
def get_heat_map_real (env : Env) (city : String) (collection : List Image)
    (lstStats : Except String (Option ℚ)) : Except HTTPError HeatResponse :=
  match get_city_coords env city with
  | Except.error e => Except.error e
  | Except.ok c =>
    match eeFirst collection with
    | none =>
        Except.error ⟨404, "No valid satellite imagery found for the date range."⟩
    | some _ =>
      match lstStats with
      | Except.error msg =>
          Except.error ⟨500, "An Earth Engine error occurred: " ++ msg⟩
      | Except.ok none =>
          Except.error ⟨404, "Could not calculate temperature."⟩
      | Except.ok (some avg_temp) =>
          Except.ok ⟨pyTitle city, c.lat, c.lon, avg_temp, "Landsat 9 Satellite"⟩

/-- The parameters the two real-data pipelines pass to the platform when
filtering their image collections. -/
structure CollectionFilter where
  collection_id : String
  cloud_property : String
  cloud_lt : ℚ
  date_start : String
  date_end : String
deriving DecidableEq, Repr

/-- The collection filter of the vegetation pipeline (main.py lines 75-78). -/
def greencover_filter : CollectionFilter :=
  ⟨"COPERNICUS/S2_SR_HARMONIZED", "CLOUDY_PIXEL_PERCENTAGE", 20,
   "2023-01-01", "2023-12-31"⟩

/-- The collection filter of the heat pipeline (main.py lines 118-121). -/
def heatmap_filter : CollectionFilter :=
  ⟨"LANDSAT/LC09/C02/T1_L2", "CLOUD_COVER", 20,
   "2023-01-01", "2023-12-31"⟩

/-- The JSON payload of `/city/{city}/simulate` (main.py line 174), nested
dictionaries flattened. -/
structure SimPayload where
  impact_temperature_current : String
  impact_temperature_change : String
  impact_aqi_current : ℤ
  impact_aqi_change : ℤ
  benefits_co2_absorbed : String
  benefits_investment : String
deriving DecidableEq, Repr

/-- `get_simulation` (main.py lines 172-174).  The handler receives the
request environment and the process-wide `random`-module state (modelled as
a stream of naturals, as the other simulated endpoints draw from it), but
its body neither resolves the city nor draws randomness: it returns one
fixed literal payload. -/
def get_simulation (env : Env) (randState : Nat → Nat)
    (city intervention scale : String) : Except HTTPError SimPayload :=
  Except.ok ⟨"25.1°C", "-2.5°C", 83, -20, "150 Tons/year", "$500K"⟩

/-- Claim C1: whenever the city resolves and the spatial reduction returns an
NDVI value `v`, the greencover payload's percentage is exactly `(v + 1) * 50`;
in particular `v = 0` yields 50, `v = -1` yields 0 and `v = 1` yields 100
(rendered `50.00%`, `0.00%`, `100.00%` by the `:.2f` formatting). -/
theorem greencover_rescale (env : Env) (city : String) (c : Coord) (v : ℚ)
    (h : get_city_coords env city = Except.ok c) :
    get_green_cover_real env city (Except.ok (some v))
      = Except.ok ⟨pyTitle city, c.lat, c.lon, (v + 1) * 50, v, "Sentinel-2 Satellite"⟩ ∧
    get_green_cover_real env city (Except.ok (some 0))
      = Except.ok ⟨pyTitle city, c.lat, c.lon, 50, 0, "Sentinel-2 Satellite"⟩ ∧
    get_green_cover_real env city (Except.ok (some (-1)))
      = Except.ok ⟨pyTitle city, c.lat, c.lon, 0, -1, "Sentinel-2 Satellite"⟩ ∧
    get_green_cover_real env city (Except.ok (some 1))
      = Except.ok ⟨pyTitle city, c.lat, c.lon, 100, 1, "Sentinel-2 Satellite"⟩ := by
  refine ⟨?_, ?_, ?_, ?_⟩ <;> simp [get_green_cover_real, h] <;> norm_num

/-- Witness for `greencover_rescale` at the static-table city `"tokyo"` and
NDVI value 0. -/
theorem greencover_rescale_witness :
    get_green_cover_real ⟨none, fun _ => GeoOutcome.requestError⟩ "tokyo"
        (Except.ok (some 0))
      = Except.ok ⟨"Tokyo", 35.6762, 139.6503, 50, 0, "Sentinel-2 Satellite"⟩ :=
  (greencover_rescale ⟨none, fun _ => GeoOutcome.requestError⟩ "tokyo"
    ⟨35.6762, 139.6503⟩ 0 rfl).2.1

/-- Claim C2 counterexample: `scale_thermal 100` is exactly `-123.808198`,
so the claim's particular value `-123.808` is not the converted value. -/
theorem scale_thermal_100_cex :
    scale_thermal 100 = -123.808198 ∧ scale_thermal 100 ≠ -123.808 := by
  constructor <;> norm_num [scale_thermal]

/-- Claim C2 (amended): the heat pipeline converts a raw band value `x` by
the fixed linear formula `x * 0.00341802 + 149.0 - 273.15`; in particular a
raw value of 100 converts to exactly `-123.808198` °C. -/
theorem scale_thermal_formula :
    (∀ x : ℚ, scale_thermal x = x * 0.00341802 + 149.0 - 273.15) ∧
    scale_thermal 100 = -123.808198 :=
  ⟨fun _ => rfl, by norm_num [scale_thermal]⟩

/-- Claim C3: a city whose lower-cased name is in the static table resolves
to the table's coordinate pair under every environment (so no geocoding
call can influence the result), and any casing of `"Tokyo"` resolves to
`(35.6762, 139.6503)`. -/
theorem known_city_lookup_fixed (city : String) (c : Coord)
    (h : List.lookup (pyLower city) known_cities = some c) :
    (∀ env : Env, get_city_coords env city = Except.ok c) ∧
    (pyLower city = "tokyo" → c = ⟨35.6762, 139.6503⟩) := by
  constructor
  · intro env
    simp [get_city_coords, h]
  · intro ht
    rw [ht] at h
    have h2 : List.lookup "tokyo" known_cities
        = some (⟨35.6762, 139.6503⟩ : Coord) := by rfl
    rw [h2] at h
    exact (Option.some.inj h).symm

/-- Witness for `known_city_lookup_fixed`: the mixed casing `"ToKYo"`, under
an environment with no API key and a failing geocoder, still resolves to the
static Tokyo entry. -/
theorem known_city_lookup_fixed_witness :
    get_city_coords ⟨none, fun _ => GeoOutcome.requestError⟩ "ToKYo"
      = Except.ok ⟨35.6762, 139.6503⟩ :=
  (known_city_lookup_fixed "ToKYo" ⟨35.6762, 139.6503⟩ rfl).1
    ⟨none, fun _ => GeoOutcome.requestError⟩

/-- Claim C4 counterexample: for a city outside the static table with the
API key unconfigured, the resolver fails with status 500, a failure mode
that is neither NotFound (404) nor ServiceUnavailable (503). -/
theorem resolver_missing_key_cex :
    get_city_coords ⟨none, fun _ => GeoOutcome.ok []⟩ "Atlantis"
      = Except.error ⟨500, "OpenWeatherMap API key is not configured."⟩ ∧
    ¬ ((500 : Nat) = 404 ∨ (500 : Nat) = 503) :=
  ⟨rfl, by decide⟩

/-- Claim C4 (amended): provided the geocoding API key is configured, for a
city not in the static table the resolver fails with 404 exactly when the
geocoding call returns an empty result set, fails with 503 exactly when the
call errors or times out, succeeds on the first match otherwise, and has no
other failure mode. -/
theorem resolver_fallback_modes (geo : String → GeoOutcome) (key city : String)
    (h : List.lookup (pyLower city) known_cities = none) :
    (geo city = GeoOutcome.ok [] →
      get_city_coords ⟨some key, geo⟩ city
        = Except.error ⟨404, "City " ++ sq ++ city ++ sq ++ " not found."⟩) ∧
    (geo city = GeoOutcome.requestError →
      get_city_coords ⟨some key, geo⟩ city
        = Except.error ⟨503, "Geocoding service is unavailable."⟩) ∧
    (∀ d rest, geo city = GeoOutcome.ok (d :: rest) →
      get_city_coords ⟨some key, geo⟩ city = Except.ok d) ∧
    (∀ e, get_city_coords ⟨some key, geo⟩ city = Except.error e →
      (e.status = 404 ∧ geo city = GeoOutcome.ok []) ∨
      (e.status = 503 ∧ geo city = GeoOutcome.requestError)) := by
  refine ⟨?_, ?_, ?_, ?_⟩
  · intro hg; simp [get_city_coords, h, hg]
  · intro hg; simp [get_city_coords, h, hg]
  · intro d rest hg; simp [get_city_coords, h, hg]
  · intro e he
    cases hg : geo city with
    | requestError =>
        rw [show get_city_coords ⟨some key, geo⟩ city
            = Except.error ⟨503, "Geocoding service is unavailable."⟩ from by
          simp [get_city_coords, h, hg]] at he
        injection he with h1
        subst h1
        exact Or.inr ⟨rfl, rfl⟩
    | ok data =>
        cases data with
        | nil =>
            rw [show get_city_coords ⟨some key, geo⟩ city
                = Except.error ⟨404, "City " ++ sq ++ city ++ sq ++ " not found."⟩ from by
              simp [get_city_coords, h, hg]] at he
            injection he with h1
            subst h1
            exact Or.inl ⟨rfl, rfl⟩
        | cons d rest =>
            rw [show get_city_coords ⟨some key, geo⟩ city = Except.ok d from by
              simp [get_city_coords, h, hg]] at he
            exact Except.noConfusion he

/-- Witness for `resolver_fallback_modes`: the unknown city `"Atlantis"`
with a configured key and an empty geocoding result yields the 404. -/
theorem resolver_fallback_modes_witness :
    get_city_coords ⟨some "key", fun _ => GeoOutcome.ok []⟩ "Atlantis"
      = Except.error ⟨404, "City " ++ sq ++ "Atlantis" ++ sq ++ " not found."⟩ :=
  (resolver_fallback_modes (fun _ => GeoOutcome.ok []) "key" "Atlantis" rfl).1 rfl

/-- Claim C5: when the city resolves but the spatial reduction yields no
NDVI value, the greencover endpoint fails with 404, its detail is the fixed
string `"Could not calculate NDVI for this area."` (which contains the
phrase "could not calculate" up to its sentence-initial capital), and no
success payload is returned. -/
theorem greencover_empty_404 (env : Env) (city : String) (c : Coord)
    (h : get_city_coords env city = Except.ok c) :
    get_green_cover_real env city (Except.ok none)
      = Except.error ⟨404, "Could not calculate NDVI for this area."⟩ ∧
    (∀ r, get_green_cover_real env city (Except.ok none) ≠ Except.ok r) ∧
    strHas (pyLower "Could not calculate NDVI for this area.").data
      "could not calculate".data = true := by
  have h1 : get_green_cover_real env city (Except.ok none)
      = Except.error ⟨404, "Could not calculate NDVI for this area."⟩ := by
    simp [get_green_cover_real, h]
  refine ⟨h1, ?_, by rfl⟩
  intro r hr
  rw [h1] at hr
  exact Except.noConfusion hr

/-- Witness for `greencover_empty_404` at the static-table city `"Mumbai"`. -/
theorem greencover_empty_404_witness :
    get_green_cover_real ⟨none, fun _ => GeoOutcome.requestError⟩ "Mumbai"
        (Except.ok none)
      = Except.error ⟨404, "Could not calculate NDVI for this area."⟩ :=
  (greencover_empty_404 ⟨none, fun _ => GeoOutcome.requestError⟩ "Mumbai"
    ⟨19.0760, 72.8777⟩ rfl).1

/-- Claim C8: the vegetation and heat pipelines use the identical date
window (`2023-01-01` to `2023-12-31`) and the identical cloud-cover
threshold of 20 when filtering their image collections. -/
theorem filters_identical :
    greencover_filter.date_start = heatmap_filter.date_start ∧
    greencover_filter.date_end = heatmap_filter.date_end ∧
    greencover_filter.cloud_lt = heatmap_filter.cloud_lt ∧
    heatmap_filter.cloud_lt = 20 ∧
    greencover_filter.date_start = "2023-01-01" ∧
    greencover_filter.date_end = "2023-12-31" :=
  ⟨rfl, rfl, rfl, rfl, rfl, rfl⟩

/-- Claim C9 counterexample: two simulate calls with identical city,
intervention and scale parameters but different environments and different
random-module states return the identical payload, exhibiting that the
endpoint is not drawing from random ranges. -/
theorem simulate_identical_cex :
    get_simulation ⟨some "key", fun _ => GeoOutcome.ok []⟩ (fun _ => 0)
        "Tokyo" "Parks" "Medium"
      = get_simulation ⟨none, fun _ => GeoOutcome.requestError⟩ (fun n => n + 1)
        "Tokyo" "Parks" "Medium" := rfl

/-- Claim C9 (amended): the simulate endpoint is deterministic and constant:
any two calls, whatever their environments, random states, cities,
interventions and scales, return the identical payload. -/
theorem simulate_constant (env1 env2 : Env) (r1 r2 : Nat → Nat)
    (city1 intervention1 scale1 city2 intervention2 scale2 : String) :
    get_simulation env1 r1 city1 intervention1 scale1
      = get_simulation env2 r2 city2 intervention2 scale2 := rfl

/-- Claim C10: for every environment (including ones where the resolver
fails for every city), every random state and every city, intervention and
scale, the simulate endpoint succeeds with its fixed payload and never
returns an HTTP error. -/
theorem simulate_never_errors (env : Env) (r : Nat → Nat)
    (city intervention scale : String) :
    get_simulation env r city intervention scale
        = Except.ok ⟨"25.1°C", "-2.5°C", 83, -20, "150 Tons/year", "$500K"⟩ ∧
    ∀ e : HTTPError, get_simulation env r city intervention scale ≠ Except.error e :=
  ⟨rfl, fun _ he => Except.noConfusion he⟩

/-- Claim C6: when the city resolves, the heatmap endpoint fails with 404
when no image passed the collection filters (empty filtered collection, so
`first()` is `None`) and with 404 when the spatial reduction yields no
value, while a platform error surfaces as 500. -/
theorem heatmap_error_modes (env : Env) (city : String) (c : Coord)
    (collection : List Image) (lstStats : Except String (Option ℚ))
    (h : get_city_coords env city = Except.ok c) :
    (eeFirst collection = none →
      get_heat_map_real env city collection lstStats
        = Except.error ⟨404, "No valid satellite imagery found for the date range."⟩) ∧
    (∀ img, eeFirst collection = some img → lstStats = Except.ok none →
      get_heat_map_real env city collection lstStats
        = Except.error ⟨404, "Could not calculate temperature."⟩) ∧
    (∀ img msg, eeFirst collection = some img → lstStats = Except.error msg →
      get_heat_map_real env city collection lstStats
        = Except.error ⟨500, "An Earth Engine error occurred: " ++ msg⟩) ∧
    (collection = [] → eeFirst collection = none) := by
  refine ⟨?_, ?_, ?_, ?_⟩
  · intro hf; simp [get_heat_map_real, h, hf]
  · intro img hf hs; simp [get_heat_map_real, h, hf, hs]
  · intro img msg hf hs; simp [get_heat_map_real, h, hf, hs]
  · intro hc; subst hc; rfl

/-- Witness for `heatmap_error_modes`: the static-table city `"London"` with
an empty filtered collection yields the no-imagery 404. -/
theorem heatmap_error_modes_witness :
    get_heat_map_real ⟨none, fun _ => GeoOutcome.requestError⟩ "London" []
        (Except.ok none)
      = Except.error ⟨404, "No valid satellite imagery found for the date range."⟩ :=
  (heatmap_error_modes ⟨none, fun _ => GeoOutcome.requestError⟩ "London"
    ⟨51.5072, -0.1276⟩ [] (Except.ok none) rfl).1 rfl

/-- Claim C7: on a non-empty filtered collection, sorting by acquisition
time descending and taking the first element yields exactly one image, it
belongs to the collection, and its `system:time_start` is maximal. -/
theorem heatmap_most_recent (l : List Image) (h : l ≠ []) :
    ∃ m, eeFirst l = some m ∧ m ∈ l ∧ ∀ x ∈ l, x.time_start ≤ m.time_start := by
  induction l with
  | nil => exact absurd rfl h
  | cons a t ih =>
    by_cases ht : t = []
    · subst ht
      refine ⟨a, rfl, List.mem_singleton_self a, ?_⟩
      intro x hx
      rw [List.mem_singleton] at hx
      subst hx
      exact le_refl _
    · obtain ⟨m, hm, hmem, hbound⟩ := ih ht
      obtain ⟨rest, hrest⟩ : ∃ rest, sortDesc t = m :: rest := by
        unfold eeFirst at hm
        cases hs : sortDesc t with
        | nil => rw [hs] at hm; exact Option.noConfusion hm
        | cons y ys =>
            rw [hs] at hm
            injection hm with h1
            exact ⟨ys, by rw [← h1]⟩
      have hsort : sortDesc (a :: t) = insertDesc a (m :: rest) := by
        show insertDesc a (sortDesc t) = _
        rw [hrest]
      by_cases hle : m.time_start ≤ a.time_start
      · refine ⟨a, ?_, List.mem_cons_self a t, ?_⟩
        · show (sortDesc (a :: t)).head? = some a
          rw [hsort]
          simp only [insertDesc]
          rw [if_pos hle]
          rfl
        · intro x hx
          rcases List.mem_cons.mp hx with h1 | h2
          · subst h1; exact le_refl _
          · exact le_trans (hbound x h2) hle
      · refine ⟨m, ?_, List.mem_cons_of_mem a hmem, ?_⟩
        · show (sortDesc (a :: t)).head? = some m
          rw [hsort]
          simp only [insertDesc]
          rw [if_neg hle]
          rfl
        · intro x hx
          rcases List.mem_cons.mp hx with h1 | h2
          · subst h1; exact le_of_not_le hle
          · exact hbound x h2

/-- Witness for `heatmap_most_recent` on a concrete three-image collection
whose most recent image has timestamp 9. -/
theorem heatmap_most_recent_witness :
    ∃ m, eeFirst [⟨5⟩, ⟨9⟩, ⟨7⟩] = some m ∧ m ∈ [⟨5⟩, ⟨9⟩, ⟨7⟩] ∧
      ∀ x ∈ [(⟨5⟩ : Image), ⟨9⟩, ⟨7⟩], x.time_start ≤ m.time_start :=
  heatmap_most_recent [⟨5⟩, ⟨9⟩, ⟨7⟩] (by decide)

end HealthyCity
